import Mathlib

set_option maxRecDepth 100000

/-!
Verification development for the skedaddle-google-ads repository.

The code under scrutiny is a JSON-RPC-style protocol adapter over a small
tool registry (`src/mcpAdsServer.ts`) together with two variants of the HTTP
handler (`api/mcp.ts` and an unnamed sibling file).  We shallowly embed the
decoded-request/response behaviour: JSON values are modelled by an inductive
type, the zod validators by explicit parsing functions, the single outbound
network call by an oracle `FetchReq → FetchResp`, and each handler by a pure
function from the decoded POST body to an HTTP status plus response body.
Transport-level concerns (GET routing, bearer gate, raw-body JSON parsing,
credential acquisition) are out of scope per the specification; the handlers
below receive the already-decoded body object.
-/

/-- JSON-like values.  Numeric fields in every schema of this repository are
integer-typed (JSON-schema `integer` plus zod `.int()`), so numbers are
modelled as integers. -/
inductive Json where
  | null
  | bool (b : Bool)
  | int (n : Int)
  | str (s : String)
  | arr (xs : List Json)
  | obj (fields : List (String × Json))

/-- First binding of key `k` in an object's field list (JS property lookup;
field lists built by the embedding have unique keys). -/
def jLookup (fs : List (String × Json)) (k : String) : Option Json :=
  match fs with
  | [] => none
  | (k2, v) :: rest => if k2 = k then some v else jLookup rest k

/-- `j?.k` for an arbitrary value: property access that yields `none`
(JS `undefined`) on non-objects. -/
def jGet (j : Json) (k : String) : Option Json :=
  match j with
  | .obj fs => jLookup fs k
  | _ => none

/-- JavaScript truthiness of a JSON value. -/
def jTruthy : Json → Bool
  | .null => false
  | .bool b => b
  | .int n => n != 0
  | .str s => !s.isEmpty
  | .arr _ => true
  | .obj _ => true

/-- `x || dflt` on an optional property (JS falsy-coalescing). -/
def jsOr (v : Option Json) (dflt : Json) : Json :=
  match v with
  | some x => if jTruthy x then x else dflt
  | none => dflt

/-- Top-level keys of an object (empty for non-objects). -/
def jKeys : Json → List String
  | .obj fs => fs.map Prod.fst
  | _ => []

mutual
/-- JS string interpolation `${v}` of a JSON value. -/
def jsDisplay : Json → String
  | .null => "null"
  | .bool b => if b then "true" else "false"
  | .int n => toString n
  | .str s => s
  | .arr xs => String.intercalate "," (jsDisplayList xs)
  | .obj _ => "[object Object]"

/-- Element-wise display used by JS `Array.prototype.toString` (null and
undefined elements render as the empty string). -/
def jsDisplayList : List Json → List String
  | [] => []
  | .null :: rest => "" :: jsDisplayList rest
  | x :: rest => jsDisplay x :: jsDisplayList rest
end

/-- Does `needle` occur at the start of `hay`? -/
def listStarts : List Char → List Char → Bool
  | [], _ => true
  | _ :: _, [] => false
  | a :: as, b :: bs => a == b && listStarts as bs

/-- Does `needle` occur anywhere in `hay`? -/
def listContains (needle : List Char) : List Char → Bool
  | [] => listStarts needle []
  | b :: bs => listStarts needle (b :: bs) || listContains needle bs

/-- Substring test on strings. -/
def strContains (hay needle : String) : Bool :=
  listContains needle.data hay.data

/-- Last value bound to key `k` (current candidate `v`). -/
def lastVal (k : String) (v : Json) : List (String × Json) → Json
  | [] => v
  | (k2, v2) :: rest => lastVal k (if k2 = k then v2 else v) rest

/-- Worker for `dedupJs`: keys in `seen` were already emitted. -/
def dedupJsAux (seen : List String) : List (String × Json) → List (String × Json)
  | [] => []
  | (k, v) :: rest =>
    if seen.contains k then dedupJsAux seen rest
    else (k, lastVal k v rest) :: dedupJsAux (k :: seen) rest

/-- JS object-literal semantics for a pair list possibly containing duplicate
keys (as produced by spread syntax): position of the first occurrence, value
of the last. -/
def dedupJs (l : List (String × Json)) : List (String × Json) :=
  dedupJsAux [] l

/-- A JS object literal built from possibly-duplicated pairs. -/
def jsObjLit (pairs : List (String × Json)) : Json :=
  .obj (dedupJs pairs)

example : jLookup [("a", .int 1), ("b", .int 2)] "b" = some (.int 2) := rfl
example : jsObjLit [("a", .int 1), ("b", .int 2), ("a", .int 3)]
    = .obj [("a", .int 3), ("b", .int 2)] := rfl
example : strContains "WHERE x BETWEEN a AND b LIMIT 3" "LIMIT 3" = true := by decide
example : strContains "abc" "bd" = false := by decide

/-! ### Tool registry (`src/mcpAdsServer.ts`) -/

/-- Subschema `gaql: {type: "string", description}`. -/
def gaqlSubschema : Json :=
  .obj [("type", .str "string"), ("description", .str "GAQL query string")]

/-- Subschema `pageSize: {type: "integer", minimum: 1, maximum: 10000}`. -/
def pageSizeSubschema : Json :=
  .obj [("type", .str "integer"), ("minimum", .int 1), ("maximum", .int 10000)]

/-- Published JSON input schema of `ads_search` (mcpAdsServer.ts lines 98-107). -/
def adsSearchSchema : Json := .obj
  [ ("$schema", .str "http://json-schema.org/draft-07/schema#")
  , ("type", .str "object")
  , ("additionalProperties", .bool false)
  , ("properties", .obj [("gaql", gaqlSubschema), ("pageSize", pageSizeSubschema)])
  , ("required", .arr [.str "gaql"])
  ]

/-- Subschema `limit: {type: "integer", minimum: 1, maximum: 1000}`. -/
def limitSubschema : Json :=
  .obj [("type", .str "integer"), ("minimum", .int 1), ("maximum", .int 1000)]

/-- Subschema `startDate: {type: "string"}` (also used for `endDate`). -/
def dateStrSubschema : Json := .obj [("type", .str "string")]

/-- Subschema of the nested `dateRange` object. -/
def dateRangeSubschema : Json := .obj
  [ ("type", .str "object")
  , ("additionalProperties", .bool false)
  , ("properties", .obj [("startDate", dateStrSubschema), ("endDate", dateStrSubschema)])
  , ("required", .arr [.str "startDate", .str "endDate"])
  ]

/-- Published JSON input schema of `ads_top_campaigns` (lines 132-146). -/
def adsTopCampaignsSchema : Json := .obj
  [ ("$schema", .str "http://json-schema.org/draft-07/schema#")
  , ("type", .str "object")
  , ("additionalProperties", .bool false)
  , ("properties", .obj [("limit", limitSubschema), ("dateRange", dateRangeSubschema)])
  , ("required", .arr [])
  ]

/-- Registry metadata of a tool (the executable parts — `validate`/`run` —
are embedded by `callAdsTool` below). -/
structure ToolMeta where
  name : String
  title : String
  description : String
  inputSchema : Json

def adsSearchMeta : ToolMeta :=
  ⟨"ads_search", "Google Ads: GAQL Search",
   "Run a GAQL query against Google Ads (search).", adsSearchSchema⟩

def adsTopCampaignsMeta : ToolMeta :=
  ⟨"ads_top_campaigns", "Google Ads: Top Campaigns (last 7 days)",
   "Returns top campaigns by clicks over the last 7 days.", adsTopCampaignsSchema⟩

/-- The registry `tools`, in insertion order. -/
def registry : List ToolMeta := [adsSearchMeta, adsTopCampaignsMeta]

/-- One entry of `listAdsTools()` (lines 177-189): metadata plus the schema in
three compatibility shapes; no handler fields. -/
def toolDescriptor (t : ToolMeta) : Json := .obj
  [ ("name", .str t.name)
  , ("title", .str t.title)
  , ("description", .str t.description)
  , ("inputSchema", t.inputSchema)
  , ("input_schema", t.inputSchema)
  , ("parameters", .obj
      [ ("type", .str "object")
      , ("properties", jsOr (jGet t.inputSchema "properties") (.obj []))
      , ("required", jsOr (jGet t.inputSchema "required") (.arr []))
      , ("additionalProperties", .bool false)
      ])
  ]

/-- `listAdsTools()`. -/
def listAdsTools : List Json := registry.map toolDescriptor

/-! ### zod validators

`zSearch` / `zTopCampaigns` (mcpAdsServer.ts lines 89-92 and 121-126),
modelled as explicit parsers.  zod's `.parse` throws a `ZodError` carrying a
list of issues; we return `Except` with one rendered string per issue (the
exact ZodError pretty-printing is abstracted by `zodMessage` below).  Unknown
object keys are stripped, matching `z.object`'s default behaviour. -/

structure SearchArgs where
  gaql : String
  pageSize : Int
deriving DecidableEq

structure DateRange where
  startDate : String
  endDate : String
deriving DecidableEq

structure TopCampaignsArgs where
  limit : Int
  dateRange : DateRange
deriving DecidableEq

/-- `gaql: z.string().min(3, "GAQL query required")` — required field. -/
def parseGaqlField : Option Json → Except (List String) String
  | some (.str s) => if 3 ≤ s.length then .ok s else .error ["gaql: GAQL query required"]
  | some _ => .error ["gaql: Expected string"]
  | none => .error ["gaql: Required"]

/-- `pageSize: z.number().int().min(1).max(10000).default(1000)`. -/
def parsePageSizeField : Option Json → Except (List String) Int
  | none => .ok 1000
  | some (.int n) =>
    if 1 ≤ n ∧ n ≤ 10000 then .ok n else .error ["pageSize: out of range"]
  | some _ => .error ["pageSize: Expected number"]

/-- `zSearch.parse` — issues from both fields are collected, as zod does. -/
def zSearchParse (input : Json) : Except (List String) SearchArgs :=
  match input with
  | .obj fields =>
    match parseGaqlField (jLookup fields "gaql"),
          parsePageSizeField (jLookup fields "pageSize") with
    | .ok g, .ok p => .ok ⟨g, p⟩
    | .error e1, .error e2 => .error (e1 ++ e2)
    | .error e1, .ok _ => .error e1
    | .ok _, .error e2 => .error e2
  | _ => .error ["Expected object"]

/-- `limit: z.number().int().min(1).max(1000).default(10)`. -/
def parseLimitField : Option Json → Except (List String) Int
  | none => .ok 10
  | some (.int n) =>
    if 1 ≤ n ∧ n ≤ 1000 then .ok n else .error ["limit: out of range"]
  | some _ => .error ["limit: Expected number"]

/-- A required `z.string()` field of the nested `dateRange` object. -/
def parseDateStr (label : String) : Option Json → Except (List String) String
  | some (.str s) => .ok s
  | some _ => .error [label ++ ": Expected string"]
  | none => .error [label ++ ": Required"]

/-- `dateRange: z.object({startDate, endDate}).default({LAST_7_DAYS, TODAY})`. -/
def parseDateRangeField : Option Json → Except (List String) DateRange
  | none => .ok ⟨"LAST_7_DAYS", "TODAY"⟩
  | some (.obj fs) =>
    match parseDateStr "dateRange.startDate" (jLookup fs "startDate"),
          parseDateStr "dateRange.endDate" (jLookup fs "endDate") with
    | .ok s, .ok e => .ok ⟨s, e⟩
    | .error a, .error b => .error (a ++ b)
    | .error a, .ok _ => .error a
    | .ok _, .error b => .error b
  | some _ => .error ["dateRange: Expected object"]

/-- `zTopCampaigns.parse`. -/
def zTopCampaignsParse (input : Json) : Except (List String) TopCampaignsArgs :=
  match input with
  | .obj fields =>
    match parseLimitField (jLookup fields "limit"),
          parseDateRangeField (jLookup fields "dateRange") with
    | .ok l, .ok d => .ok ⟨l, d⟩
    | .error e1, .error e2 => .error (e1 ++ e2)
    | .error e1, .ok _ => .error e1
    | .ok _, .error e2 => .error e2
  | _ => .error ["Expected object"]

/-- The JS object produced by `zSearch.parse`, as handed to `run` (which
re-parses it). -/
def searchArgsToJson (a : SearchArgs) : Json :=
  .obj [("gaql", .str a.gaql), ("pageSize", .int a.pageSize)]

/-- The JS object produced by `zTopCampaigns.parse`. -/
def topArgsToJson (a : TopCampaignsArgs) : Json :=
  .obj [ ("limit", .int a.limit)
       , ("dateRange", .obj [ ("startDate", .str a.dateRange.startDate)
                            , ("endDate", .str a.dateRange.endDate)])]

/-! ### Upstream call (`adsSearch`, lines 52-73)

Credential acquisition and environment lookup are explicitly out of scope
(spec section 1); the single outbound `fetch` is modelled by an oracle.  Each
invocation of `adsSearch` issues exactly one request; the list of issued
requests is returned alongside the outcome. -/

structure FetchReq where
  gaql : String
  pageSize : Int
deriving DecidableEq

/-- Upstream outcome: `resp.ok` with a JSON body, or a non-success status
with body text. -/
inductive FetchResp where
  | ok (body : Json)
  | err (status : Nat) (text : String)

abbrev Oracle := FetchReq → FetchResp

/-- Failures of `callAdsTool`: unknown tool name, zod validation failure, or
upstream non-success (`Google Ads API error ...`). -/
inductive RegError where
  | unknownTool (name : String)
  | validation (issues : List String)
  | upstream (status : Nat) (text : String)
deriving DecidableEq

/-- ZodError pretty-printing, abstracted: one line per issue. -/
def zodMessage (issues : List String) : String :=
  String.intercalate "; " issues

/-- `e.message` of the thrown error, as seen by the adapters. -/
def regErrMessage : RegError → String
  | .unknownTool n => "Unknown tool: " ++ n
  | .validation issues => zodMessage issues
  | .upstream s t => "Google Ads API error " ++ toString s ++ ": " ++ t

/-- An Invocation Result: `content: [{type:"text", text}]` plus
`structuredContent: {rows}`. -/
structure ToolResult where
  contentText : String
  rows : Json

/-- `(data as any)?.results ?? []`. -/
def jsRows (data : Json) : Json :=
  match jGet data "results" with
  | some .null => .arr []
  | some v => v
  | none => .arr []

/-- JS `${rows.length}` for an arbitrary value (arrays and strings have a
`length`; anything else yields `undefined`). -/
def jsLenStr : Json → String
  | .arr xs => toString xs.length
  | .str s => toString s.length
  | _ => "undefined"

/-- The GAQL template of `ads_top_campaigns` (lines 152-164), whitespace
exactly as in the template literal. -/
def topCampaignsGaql (limit : Int) (startDate endDate : String) : String :=
  "\n      SELECT\n        campaign.id,\n        campaign.name,\n        metrics.impressions,\n        metrics.clicks,\n        metrics.ctr,\n        metrics.cost_micros\n      FROM campaign\n      WHERE segments.date BETWEEN \x27" ++ startDate ++ "\x27 AND \x27" ++ endDate ++ "\x27\n      ORDER BY metrics.clicks DESC\n      LIMIT " ++ toString limit ++ "\n    "

/-- `tools["ads_search"].run` (lines 109-117): re-parse, one upstream call,
rows verbatim, summary with the row count. -/
def adsSearchRun (oracle : Oracle) (input : Json) :
    Except RegError ToolResult × List FetchReq :=
  match zSearchParse input with
  | .error issues => (.error (.validation issues), [])
  | .ok args =>
    let req : FetchReq := ⟨args.gaql, args.pageSize⟩
    match oracle req with
    | .ok data =>
      let rows := jsRows data
      (.ok ⟨"Returned " ++ jsLenStr rows ++ " rows.", rows⟩, [req])
    | .err status text => (.error (.upstream status text), [req])

/-- `tools["ads_top_campaigns"].run` (lines 148-171): re-parse, build the
templated query, one upstream call with `pageSize := limit`. -/
def topCampaignsRun (oracle : Oracle) (input : Json) :
    Except RegError ToolResult × List FetchReq :=
  match zTopCampaignsParse input with
  | .error issues => (.error (.validation issues), [])
  | .ok args =>
    let s := args.dateRange.startDate
    let e := args.dateRange.endDate
    let req : FetchReq := ⟨topCampaignsGaql args.limit s e, args.limit⟩
    match oracle req with
    | .ok data =>
      let rows := jsRows data
      (.ok ⟨"Top " ++ jsLenStr rows ++ " campaigns by clicks (" ++ s ++ ".." ++ e ++ ").",
            rows⟩, [req])
    | .err status text => (.error (.upstream status text), [req])

/-- `callAdsTool(name, args)` (lines 192-197): registry lookup, `validate`
(zod parse), then `run` on the parsed value.  Inherited `Object.prototype`
keys of the registry record are not modelled; no claim touches them. -/
def callAdsTool (oracle : Oracle) (name : String) (args : Json) :
    Except RegError ToolResult × List FetchReq :=
  if name = "ads_search" then
    match zSearchParse args with
    | .error issues => (.error (.validation issues), [])
    | .ok parsed => adsSearchRun oracle (searchArgsToJson parsed)
  else if name = "ads_top_campaigns" then
    match zTopCampaignsParse args with
    | .error issues => (.error (.validation issues), [])
    | .ok parsed => topCampaignsRun oracle (topArgsToJson parsed)
  else
    (.error (.unknownTool name), [])

/-! ### Protocol adapters (`api/mcp.ts` and the unnamed sibling)

Both handlers receive the decoded POST body (an arbitrary JSON value: the
transport/`JSON.parse` step and the GET / non-POST / bearer-gate routing are
out of scope per spec section 1) and produce an HTTP status plus a response
body.  Routing is identical in both files; they differ in HTTP status codes
and in how the fallback branch attaches the help payload. -/

/-- `helpPayload().message`. -/
def helpMsg : String :=
  "POST \x7b\"jsonrpc\":\"2.0\",\"id\":1,\"method\":\"tools.list\"\x7d or \x7b\"jsonrpc\":\"2.0\",\"id\":1,\"method\":\"tools.call\",\"name\":\"...\",\"arguments\":\x7b...\x7d\x7d"

/-- `helpPayload()` fields, in literal order. -/
def helpFields : List (String × Json) :=
  [ ("mcp", .bool true)
  , ("message", .str helpMsg)
  , ("endpoints", .obj [ ("list", .str "tools.list / tools/list")
                       , ("call", .str "tools.call / tools/call")])
  ]

/-- `initializeResult()` — identical in both files. -/
def initResultJson : Json := .obj
  [ ("protocolVersion", .str "2025-06-18")
  , ("serverInfo", .obj [("name", .str "skedaddle-google-ads-mcp"), ("version", .str "1.0.0")])
  , ("capabilities", .obj
      [ ("tools", .obj [("list", .bool true), ("call", .bool true)])
      , ("actions", .obj [("list", .bool true), ("call", .bool true)])
      ])
  ]

/-- `{ tools: actions, actions }` for the listing methods. -/
def toolsListResult : Json :=
  .obj [("tools", .arr listAdsTools), ("actions", .arr listAdsTools)]

/-- A JSON-RPC error object `{code, message}`. -/
def errObj (code : Int) (message : String) : Json :=
  .obj [("code", .int code), ("message", .str message)]

/-- `jsonrpc ? { jsonrpc: "2.0", id, result } : result`. -/
def wrapResult (rpc : Bool) (id : Json) (result : Json) : Json :=
  if rpc then .obj [("jsonrpc", .str "2.0"), ("id", id), ("result", result)] else result

/-- `jsonrpc ? { jsonrpc: "2.0", id, error } : { error }`. -/
def wrapError (rpc : Bool) (id : Json) (e : Json) : Json :=
  if rpc then .obj [("jsonrpc", .str "2.0"), ("id", id), ("error", e)] else .obj [("error", e)]

/-- The Invocation Result as a JSON value (`content` / `structuredContent`). -/
def toolResultJson (r : ToolResult) : Json :=
  .obj [ ("content", .arr [.obj [("type", .str "text"), ("text", .str r.contentText)]])
       , ("structuredContent", .obj [("rows", r.rows)])
       ]

/-- Method routing, common to both handlers: the `!method` truthiness check
first, then the six recognized method strings, then the fallback. -/
inductive Route where
  | missing
  | handshake
  | notifInit
  | listTools
  | callTool
  | unknown
deriving DecidableEq

def routeOf (m : Option Json) : Route :=
  if jTruthy (m.getD .null) = false then .missing
  else match m with
    | some (.str s) =>
      if s = "initialize" then .handshake
      else if s = "notifications/initialized" then .notifInit
      else if s = "tools.list" then .listTools
      else if s = "tools/list" then .listTools
      else if s = "tools.call" then .callTool
      else if s = "tools/call" then .callTool
      else .unknown
    | _ => .unknown

/-- `body?.arguments ?? {}`. -/
def argsOf (body : Json) : Json :=
  match jGet body "arguments" with
  | some .null => .obj []
  | some v => v
  | none => .obj []

/-- `body?.id ?? null`. -/
def reqIdOf (body : Json) : Json :=
  (jGet body "id").getD .null

/-- `body?.jsonrpc ? "2.0" : null`, as a flag. -/
def rpcOf (body : Json) : Bool :=
  jTruthy ((jGet body "jsonrpc").getD .null)

/-- `body?.name`, defaulted to `undefined ↦ null` for the truthiness check. -/
def nameValOf (body : Json) : Json :=
  (jGet body "name").getD .null

/-- Fallback body of `api/mcp.ts` (line 97): help payload spread beside the
error object. -/
def fallbackBodyA (rpc : Bool) (id : Json) (m : Json) : Json :=
  if rpc then
    jsObjLit ([ ("jsonrpc", .str "2.0"), ("id", id)
              , ("error", errObj (-32601) ("Unsupported method: " ++ jsDisplay m))]
              ++ helpFields)
  else
    jsObjLit ([("error", errObj (-32601) ("Unsupported method: " ++ jsDisplay m))] ++ helpFields)

/-- Fallback error object of the unnamed handler (`sendError(-32601, msg,
helpPayload())`, lines 96-100 and 140): the spread `{code, message, ...extra}`
lets the help payload's `message` key override the "Unsupported method"
message. -/
def fallbackErrObjB (m : Json) : Json :=
  jsObjLit ([ ("code", .int (-32601))
            , ("message", .str ("Unsupported method: " ++ jsDisplay m))]
            ++ helpFields)

/-- The handler of `api/mcp.ts` (lines 52-97) on a decoded POST body. -/
def handleA (oracle : Oracle) (body : Json) : Nat × Json :=
  let rpc := rpcOf body
  let id := reqIdOf body
  match routeOf (jGet body "method") with
  | .missing => (400, wrapError rpc id (errObj (-32600) "Missing \x27method\x27 in request body."))
  | .handshake => (200, wrapResult rpc id initResultJson)
  | .notifInit => (200, wrapResult rpc id (.obj [("acknowledged", .bool true)]))
  | .listTools => (200, wrapResult rpc id toolsListResult)
  | .callTool =>
    let nameV := nameValOf body
    if jTruthy nameV = false then
      (400, wrapError rpc id (errObj (-32602) "Missing \x27name\x27 for tools.call."))
    else
      match (callAdsTool oracle (jsDisplay nameV) (argsOf body)).1 with
      | .ok r => (200, wrapResult rpc id (toolResultJson r))
      | .error e => (500, wrapError rpc id (errObj (-32000) (regErrMessage e)))
  | .unknown => (400, fallbackBodyA rpc id ((jGet body "method").getD .null))

/-- The handler of the unnamed sibling file (lines 86-140) on a decoded POST
body: same routing, but JSON-RPC errors are sent with HTTP 200 when the
`jsonrpc` marker is present (400 otherwise), and the fallback nests the help
payload inside the error object. -/
def handleB (oracle : Oracle) (body : Json) : Nat × Json :=
  let rpc := rpcOf body
  let id := reqIdOf body
  let errStatus := if rpc then 200 else 400
  match routeOf (jGet body "method") with
  | .missing => (errStatus, wrapError rpc id (errObj (-32600) "Missing \x27method\x27 in request body."))
  | .handshake => (200, wrapResult rpc id initResultJson)
  | .notifInit => (200, wrapResult rpc id (.obj [("acknowledged", .bool true)]))
  | .listTools => (200, wrapResult rpc id toolsListResult)
  | .callTool =>
    let nameV := nameValOf body
    if jTruthy nameV = false then
      (errStatus, wrapError rpc id (errObj (-32602) "Missing \x27name\x27 for tools.call."))
    else
      match (callAdsTool oracle (jsDisplay nameV) (argsOf body)).1 with
      | .ok r => (200, wrapResult rpc id (toolResultJson r))
      | .error e => (errStatus, wrapError rpc id (errObj (-32000) (regErrMessage e)))
  | .unknown => (errStatus, wrapError rpc id (fallbackErrObjB ((jGet body "method").getD .null)))

/-! ### Observations on response bodies, and concrete oracles. -/

/-- The `result` member of a response body, if any. -/
def resultOf (j : Json) : Option Json := jGet j "result"

/-- The `error` member of a response body, if any. -/
def errorOf (j : Json) : Option Json := jGet j "error"

/-- The numeric `error.code` of a response body. -/
def errCodeOf (j : Json) : Option Int :=
  match errorOf j with
  | some e => match jGet e "code" with
              | some (.int c) => some c
              | _ => none
  | none => none

/-- The `error.message` of a response body. -/
def errMessageOf (j : Json) : Option String :=
  match errorOf j with
  | some e => match jGet e "message" with
              | some (.str m) => some m
              | _ => none
  | none => none

/-- Is the outcome a `ValidationError`? -/
def isValidationErr : Except RegError ToolResult → Bool
  | .error (.validation _) => true
  | _ => false

/-- Summary text of a successful outcome (empty on failure). -/
def textOf : Except RegError ToolResult → String
  | .ok r => r.contentText
  | .error _ => ""

/-- Length of the structured rows of a successful outcome. -/
def rowsLenOf : Except RegError ToolResult → Option Nat
  | .ok r => match r.rows with
             | .arr xs => some xs.length
             | _ => none
  | .error _ => none

/-- A mocked upstream that always succeeds with an empty `results` array. -/
def oracleEmptyOk : Oracle := fun _ => .ok (.obj [("results", .arr [])])

/-- A mocked upstream that always fails with status 500. -/
def oracleFail500 : Oracle := fun _ => .err 500 "boom"

/-- The mocked upstream of the spec's example: two result rows. -/
def oracleMock2 : Oracle := fun _ =>
  .ok (.obj [("results", .arr [ .obj [("campaignId", .str "1")]
                              , .obj [("campaignId", .str "2")]])])

/-! ### JSON-schema conformance (claim level)

Claim C2 quantifies over raw arguments "conforming to the operation's
published input schema (correct field types, all required fields present, no
extra fields, numeric fields within the declared bounds)".  We interpret the
published schemas with a checker for exactly the draft-07 subset they use:
`type` ∈ {object, string, integer}, `properties`, `required`,
`additionalProperties`, `minimum`, `maximum`. -/

/-- The `type` keyword of a schema, when it is a string. -/
def schemaTypeOf (schema : Json) : Option String :=
  match jGet schema "type" with
  | some (.str s) => some s
  | _ => none

/-- The `properties` keyword (empty when absent). -/
def propsOf (schema : Json) : List (String × Json) :=
  match jGet schema "properties" with
  | some (.obj ps) => ps
  | _ => []

/-- The `required` keyword, keeping only string entries. -/
def reqdOf (schema : Json) : List String :=
  match jGet schema "required" with
  | some (.arr rs) => rs.filterMap (fun r => match r with | .str s => some s | _ => none)
  | _ => []

/-- The `additionalProperties` keyword (`true` when absent). -/
def addlOf (schema : Json) : Bool :=
  match jGet schema "additionalProperties" with
  | some (.bool b) => b
  | _ => true

def isStrJson : Json → Bool
  | .str _ => true
  | _ => false

/-- `minimum`/`maximum` checks for an `integer`-typed schema. -/
def confInt (schema v : Json) : Bool :=
  match v with
  | .int n =>
    (match jGet schema "minimum" with
     | some (.int m) => decide (m ≤ n)
     | _ => true)
    && (match jGet schema "maximum" with
        | some (.int m) => decide (n ≤ m)
        | _ => true)
  | _ => false

/-- Does value `v` conform to `schema`?  Fuel bounds the nesting depth; every
schema in this repository is fully checked with fuel 10. -/
def schemaConforms : Nat → Json → Json → Bool
  | 0, _, _ => false
  | fuel+1, schema, v =>
    if schemaTypeOf schema = some "object" then
      match v with
      | .obj fields =>
        ((propsOf schema).all fun kv =>
          match jLookup fields kv.1 with
          | some fv => schemaConforms fuel kv.2 fv
          | none => true)
        && ((reqdOf schema).all fun r => (jLookup fields r).isSome)
        && (addlOf schema || fields.all fun kv => (jLookup (propsOf schema) kv.1).isSome)
      | _ => false
    else if schemaTypeOf schema = some "string" then isStrJson v
    else if schemaTypeOf schema = some "integer" then confInt schema v
    else true

/-- `gaql` length of a raw argument object (0 when absent or non-string). -/
def gaqlLenOf (args : Json) : Nat :=
  match jGet args "gaql" with
  | some (.str s) => s.length
  | _ => 0

/-- Raw `ads_search` arguments whose `pageSize` violates the declared
[1, 10000] bound. -/
def searchBoundsViolated (args : Json) : Bool :=
  match jGet args "pageSize" with
  | some (.int n) => decide (n < 1 ∨ 10000 < n)
  | _ => false

/-- Raw `ads_top_campaigns` arguments whose `limit` violates the declared
[1, 1000] bound. -/
def topBoundsViolated (args : Json) : Bool :=
  match jGet args "limit" with
  | some (.int n) => decide (n < 1 ∨ 1000 < n)
  | _ => false

example : schemaConforms 10 adsSearchSchema
    (.obj [("gaql", .str "SELECT campaign.id FROM campaign"), ("pageSize", .int 5)]) = true := by
  decide
example : schemaConforms 10 adsSearchSchema (.obj [("gaql", .str "ab")]) = true := by decide
example : schemaConforms 10 adsSearchSchema (.obj [("gaql", .str "abc"), ("x", .int 1)]) = false := by
  decide
example : schemaConforms 10 adsSearchSchema (.obj [("gaql", .str "abc"), ("pageSize", .int 0)]) = false := by
  decide
example : schemaConforms 10 adsTopCampaignsSchema (.obj []) = true := by decide
example : schemaConforms 10 adsTopCampaignsSchema
    (.obj [("limit", .int 3), ("dateRange", .obj [("startDate", .str "a"), ("endDate", .str "b")])]) = true := by
  decide
example : schemaConforms 10 adsTopCampaignsSchema
    (.obj [("dateRange", .obj [("startDate", .str "a")])]) = false := by decide
example : isValidationErr (callAdsTool oracleEmptyOk "ads_search" (.obj [("gaql", .str "ab")])).1 = true := by
  decide
example : (callAdsTool oracleMock2 "ads_search"
    (.obj [("gaql", .str "SELECT campaign.id FROM campaign"), ("pageSize", .int 5)])).2
    = [⟨"SELECT campaign.id FROM campaign", 5⟩] := by decide
example : rowsLenOf (callAdsTool oracleMock2 "ads_search"
    (.obj [("gaql", .str "SELECT campaign.id FROM campaign"), ("pageSize", .int 5)])).1 = some 2 := by
  decide
example : textOf (callAdsTool oracleMock2 "ads_search"
    (.obj [("gaql", .str "SELECT campaign.id FROM campaign"), ("pageSize", .int 5)])).1
    = "Returned 2 rows." := by decide
example : strContains (topCampaignsGaql 3 "LAST_7_DAYS" "TODAY") "LIMIT 3" = true := by decide
example : errMessageOf (handleA oracleEmptyOk
    (.obj [("jsonrpc", .str "2.0"), ("id", .int 1), ("method", .str "nope")])).2
    = some "Unsupported method: nope" := by decide
example : errMessageOf (handleB oracleEmptyOk
    (.obj [("jsonrpc", .str "2.0"), ("id", .int 1), ("method", .str "nope")])).2
    = some helpMsg := by decide
example : errCodeOf (handleB oracleEmptyOk
    (.obj [("jsonrpc", .str "2.0"), ("id", .int 1), ("method", .str "nope")])).2
    = some (-32601) := by decide
example : (handleA oracleEmptyOk
    (.obj [("jsonrpc", .str "2.0"), ("id", .int 1), ("method", .str "tools.call"), ("name", .str "nope")])).1
    = 500 := by decide
example : errCodeOf (handleA oracleEmptyOk
    (.obj [("jsonrpc", .str "2.0"), ("id", .int 1), ("method", .str "tools.call"), ("name", .str "nope")])).2
    = some (-32000) := by decide
example : resultOf (handleA oracleEmptyOk
    (.obj [("jsonrpc", .str "2.0"), ("id", .int 1), ("method", .str "initialize")])).2
    = some initResultJson := rfl
example : jGet (handleA oracleEmptyOk (.obj [("id", .int 7), ("method", .str "tools.list")])).2 "id"
    = none := rfl

/-! ### Lemmas about the validators -/

theorem parseGaql_ok_inv (o : Option Json) (s : String)
    (h : parseGaqlField o = .ok s) : 3 ≤ s.length := by
  match o with
  | some (.str t) =>
    simp only [parseGaqlField] at h
    split at h
    · cases h; assumption
    · cases h
  | some .null | some (.bool _) | some (.int _) | some (.arr _) | some (.obj _) | none =>
    simp [parseGaqlField] at h

theorem parsePageSize_ok_inv (o : Option Json) (n : Int)
    (h : parsePageSizeField o = .ok n) : 1 ≤ n ∧ n ≤ 10000 := by
  match o with
  | none => cases h; omega
  | some (.int m) =>
    simp only [parsePageSizeField] at h
    split at h
    · cases h; omega
    · cases h
  | some .null | some (.bool _) | some (.str _) | some (.arr _) | some (.obj _) =>
    simp [parsePageSizeField] at h

theorem parseLimit_ok_inv (o : Option Json) (n : Int)
    (h : parseLimitField o = .ok n) : 1 ≤ n ∧ n ≤ 1000 := by
  match o with
  | none => cases h; omega
  | some (.int m) =>
    simp only [parseLimitField] at h
    split at h
    · cases h; omega
    · cases h
  | some .null | some (.bool _) | some (.str _) | some (.arr _) | some (.obj _) =>
    simp [parseLimitField] at h

theorem zSearchParse_pair (s : String) (n : Int)
    (h3 : 3 ≤ s.length) (h1 : 1 ≤ n) (h2 : n ≤ 10000) :
    zSearchParse (.obj [("gaql", .str s), ("pageSize", .int n)]) = .ok ⟨s, n⟩ := by
  simp [zSearchParse, jLookup, parseGaqlField, parsePageSizeField, h3, h1, h2]

theorem zSearchParse_ok_inv (args : Json) (a : SearchArgs)
    (h : zSearchParse args = .ok a) :
    3 ≤ a.gaql.length ∧ 1 ≤ a.pageSize ∧ a.pageSize ≤ 10000 := by
  match args with
  | .obj fields =>
    simp only [zSearchParse] at h
    cases hg : parseGaqlField (jLookup fields "gaql") with
    | ok g =>
      cases hp : parsePageSizeField (jLookup fields "pageSize") with
      | ok p =>
        rw [hg, hp] at h
        simp at h
        cases h
        exact ⟨parseGaql_ok_inv _ _ hg,
               (parsePageSize_ok_inv _ _ hp).1, (parsePageSize_ok_inv _ _ hp).2⟩
      | error e2 => rw [hg, hp] at h; simp at h
    | error e1 =>
      cases hp : parsePageSizeField (jLookup fields "pageSize") with
      | ok p => rw [hg, hp] at h; simp at h
      | error e2 => rw [hg, hp] at h; simp at h
  | .null | .bool _ | .int _ | .str _ | .arr _ =>
    simp [zSearchParse] at h

theorem zSearchParse_roundtrip (args : Json) (a : SearchArgs)
    (h : zSearchParse args = .ok a) :
    zSearchParse (searchArgsToJson a) = .ok a := by
  obtain ⟨h3, h1, h2⟩ := zSearchParse_ok_inv args a h
  exact zSearchParse_pair a.gaql a.pageSize h3 h1 h2

theorem zTopParse_pair (n : Int) (x y : String)
    (h1 : 1 ≤ n) (h2 : n ≤ 1000) :
    zTopCampaignsParse (.obj [ ("limit", .int n)
                             , ("dateRange", .obj [ ("startDate", .str x)
                                                  , ("endDate", .str y)])])
      = .ok ⟨n, ⟨x, y⟩⟩ := by
  simp [zTopCampaignsParse, jLookup, parseLimitField, parseDateRangeField, parseDateStr, h1, h2]

theorem zTopParse_ok_inv (args : Json) (a : TopCampaignsArgs)
    (h : zTopCampaignsParse args = .ok a) : 1 ≤ a.limit ∧ a.limit ≤ 1000 := by
  match args with
  | .obj fields =>
    simp only [zTopCampaignsParse] at h
    cases hl : parseLimitField (jLookup fields "limit") with
    | ok l =>
      cases hd : parseDateRangeField (jLookup fields "dateRange") with
      | ok d =>
        rw [hl, hd] at h
        simp at h
        cases h
        exact parseLimit_ok_inv _ _ hl
      | error e2 => rw [hl, hd] at h; simp at h
    | error e1 =>
      cases hd : parseDateRangeField (jLookup fields "dateRange") with
      | ok d => rw [hl, hd] at h; simp at h
      | error e2 => rw [hl, hd] at h; simp at h
  | .null | .bool _ | .int _ | .str _ | .arr _ =>
    simp [zTopCampaignsParse] at h

theorem zTopParse_roundtrip (args : Json) (a : TopCampaignsArgs)
    (h : zTopCampaignsParse args = .ok a) :
    zTopCampaignsParse (topArgsToJson a) = .ok a := by
  obtain ⟨h1, h2⟩ := zTopParse_ok_inv args a h
  exact zTopParse_pair a.limit a.dateRange.startDate a.dateRange.endDate h1 h2

/-! ### Characterization of `callAdsTool` -/

/-- On `ads_search`, after a successful parse the re-parse inside `run`
succeeds with the same value, so the call reduces to one oracle request. -/
theorem callSearch_eq (oracle : Oracle) (args : Json) :
    callAdsTool oracle "ads_search" args =
      match zSearchParse args with
      | .error issues => (.error (.validation issues), [])
      | .ok a =>
        match oracle ⟨a.gaql, a.pageSize⟩ with
        | .ok data =>
          (.ok ⟨"Returned " ++ jsLenStr (jsRows data) ++ " rows.", jsRows data⟩,
           [⟨a.gaql, a.pageSize⟩])
        | .err status text => (.error (.upstream status text), [⟨a.gaql, a.pageSize⟩]) := by
  unfold callAdsTool
  rw [if_pos rfl]
  cases h : zSearchParse args with
  | error issues => rfl
  | ok a =>
    simp only [adsSearchRun, zSearchParse_roundtrip args a h]

/-- On `ads_top_campaigns`, the call reduces to one oracle request carrying
the templated query with `pageSize := limit`. -/
theorem callTop_eq (oracle : Oracle) (args : Json) :
    callAdsTool oracle "ads_top_campaigns" args =
      match zTopCampaignsParse args with
      | .error issues => (.error (.validation issues), [])
      | .ok a =>
        match oracle ⟨topCampaignsGaql a.limit a.dateRange.startDate a.dateRange.endDate,
                      a.limit⟩ with
        | .ok data =>
          (.ok ⟨"Top " ++ jsLenStr (jsRows data) ++ " campaigns by clicks ("
                  ++ a.dateRange.startDate ++ ".." ++ a.dateRange.endDate ++ ").",
                jsRows data⟩,
           [⟨topCampaignsGaql a.limit a.dateRange.startDate a.dateRange.endDate, a.limit⟩])
        | .err status text =>
          (.error (.upstream status text),
           [⟨topCampaignsGaql a.limit a.dateRange.startDate a.dateRange.endDate, a.limit⟩]) := by
  unfold callAdsTool
  rw [if_neg (by decide), if_pos rfl]
  cases h : zTopCampaignsParse args with
  | error issues => rfl
  | ok a =>
    simp only [topCampaignsRun, zTopParse_roundtrip args a h]

/-! ### Inversion lemmas for schema conformance -/

/-- A value conforming to an `object`-typed schema is an object. -/
theorem conf_obj_shape (fuel : Nat) (schema v : Json)
    (hty : schemaTypeOf schema = some "object")
    (h : schemaConforms (fuel+1) schema v = true) :
    ∃ fields, v = .obj fields := by
  simp only [schemaConforms, if_pos hty] at h
  cases v <;> simp_all

/-- Field-wise consequences of conformance to an `object`-typed schema. -/
theorem conf_obj_fields (fuel : Nat) (schema : Json)
    (fields : List (String × Json))
    (hty : schemaTypeOf schema = some "object")
    (h : schemaConforms (fuel+1) schema (.obj fields) = true) :
    (∀ k sub, (k, sub) ∈ propsOf schema →
      ∀ fv, jLookup fields k = some fv → schemaConforms fuel sub fv = true) ∧
    (∀ r, r ∈ reqdOf schema → (jLookup fields r).isSome = true) := by
  simp only [schemaConforms, if_pos hty, Bool.and_eq_true, List.all_eq_true] at h
  have hp := h.1.1
  have hr := h.1.2
  refine ⟨fun k sub hmem fv hfv => ?_, fun r hmem => hr r hmem⟩
  have := hp (k, sub) hmem
  rw [hfv] at this
  simpa using this

/-- A value conforming to a `string`-typed schema is a string. -/
theorem conf_str_shape (fuel : Nat) (schema v : Json)
    (hty : schemaTypeOf schema = some "string")
    (h : schemaConforms (fuel+1) schema v = true) :
    ∃ s, v = .str s := by
  have hne : ¬ schemaTypeOf schema = some "object" := by simp [hty]
  simp only [schemaConforms, if_neg hne, if_pos hty] at h
  cases v <;> simp_all [isStrJson]

/-- A value conforming to an `integer`-typed schema is an integer within the
declared bounds. -/
theorem conf_int_shape (fuel : Nat) (schema v : Json)
    (hty : schemaTypeOf schema = some "integer")
    (h : schemaConforms (fuel+1) schema v = true) :
    ∃ n, v = .int n
      ∧ (∀ m, jGet schema "minimum" = some (.int m) → m ≤ n)
      ∧ (∀ m, jGet schema "maximum" = some (.int m) → n ≤ m) := by
  have hne1 : ¬ schemaTypeOf schema = some "object" := by simp [hty]
  have hne2 : ¬ schemaTypeOf schema = some "string" := by simp [hty]
  simp only [schemaConforms, if_neg hne1, if_neg hne2, if_pos hty] at h
  cases v with
  | int n =>
    refine ⟨n, rfl, ?_, ?_⟩
    · intro m hm
      simp only [confInt, hm, Bool.and_eq_true, decide_eq_true_eq] at h
      exact h.1
    · intro m hm
      simp only [confInt, hm, Bool.and_eq_true, decide_eq_true_eq] at h
      exact h.2
  | null | bool b | str s | arr xs | obj fs => simp [confInt] at h

/-- Arguments conforming to the published `ads_search` schema parse
successfully, provided `gaql` also meets zod's minimum length 3 (which the
published schema does not require). -/
theorem searchConf_parse (fuel : Nat) (args : Json)
    (h : schemaConforms (fuel+1+1) adsSearchSchema args = true)
    (hlen : 3 ≤ gaqlLenOf args) :
    ∃ a : SearchArgs, zSearchParse args = .ok a := by
  have hty : schemaTypeOf adsSearchSchema = some "object" := rfl
  obtain ⟨fields, rfl⟩ := conf_obj_shape _ _ _ hty h
  obtain ⟨hp, hr⟩ := conf_obj_fields _ _ _ hty h
  have hreq : (jLookup fields "gaql").isSome = true := by
    apply hr
    rw [show reqdOf adsSearchSchema = ["gaql"] from rfl]
    exact List.mem_cons_self _ _
  obtain ⟨gv, hgv⟩ := Option.isSome_iff_exists.mp hreq
  have hgc : schemaConforms (fuel+1) gaqlSubschema gv = true := by
    refine hp "gaql" gaqlSubschema ?_ gv hgv
    rw [show propsOf adsSearchSchema
          = [("gaql", gaqlSubschema), ("pageSize", pageSizeSubschema)] from rfl]
    exact List.mem_cons_self _ _
  obtain ⟨s, rfl⟩ := conf_str_shape _ gaqlSubschema _ rfl hgc
  have hslen : 3 ≤ s.length := by
    have hl : gaqlLenOf (.obj fields) = s.length := by simp [gaqlLenOf, jGet, hgv]
    rw [hl] at hlen
    exact hlen
  have e1 : parseGaqlField (jLookup fields "gaql") = .ok s := by
    rw [hgv]
    simp [parseGaqlField, hslen]
  cases hps : jLookup fields "pageSize" with
  | none =>
    exact ⟨⟨s, 1000⟩, by simp [zSearchParse, e1, hps, parsePageSizeField]⟩
  | some pv =>
    have hpc : schemaConforms (fuel+1) pageSizeSubschema pv = true := by
      refine hp "pageSize" pageSizeSubschema ?_ pv hps
      rw [show propsOf adsSearchSchema
            = [("gaql", gaqlSubschema), ("pageSize", pageSizeSubschema)] from rfl]
      exact List.mem_cons_of_mem _ (List.mem_cons_self _ _)
    obtain ⟨n, rfl, hmin, hmax⟩ := conf_int_shape _ pageSizeSubschema _ rfl hpc
    have h1 : (1:Int) ≤ n := hmin 1 rfl
    have h2 : n ≤ 10000 := hmax 10000 rfl
    have e2 : parsePageSizeField (jLookup fields "pageSize") = .ok n := by
      rw [hps]
      simp [parsePageSizeField, h1, h2]
    exact ⟨⟨s, n⟩, by simp [zSearchParse, e1, e2]⟩

/-- Arguments conforming to the published `ads_top_campaigns` schema parse
successfully. -/
theorem topConf_parse (fuel : Nat) (args : Json)
    (h : schemaConforms (fuel+1+1+1) adsTopCampaignsSchema args = true) :
    ∃ a : TopCampaignsArgs, zTopCampaignsParse args = .ok a := by
  have hty : schemaTypeOf adsTopCampaignsSchema = some "object" := rfl
  obtain ⟨fields, rfl⟩ := conf_obj_shape _ _ _ hty h
  obtain ⟨hp, _⟩ := conf_obj_fields _ _ _ hty h
  have hpropsEq : propsOf adsTopCampaignsSchema
      = [("limit", limitSubschema), ("dateRange", dateRangeSubschema)] := rfl
  obtain ⟨l, e1⟩ : ∃ l, parseLimitField (jLookup fields "limit") = .ok l := by
    cases hl : jLookup fields "limit" with
    | none => exact ⟨10, rfl⟩
    | some lv =>
      have hlc : schemaConforms (fuel+1+1) limitSubschema lv = true := by
        refine hp "limit" limitSubschema ?_ lv hl
        rw [hpropsEq]
        exact List.mem_cons_self _ _
      obtain ⟨n, rfl, hmin, hmax⟩ := conf_int_shape _ limitSubschema _ rfl hlc
      have h1 : (1:Int) ≤ n := hmin 1 rfl
      have h2 : n ≤ 1000 := hmax 1000 rfl
      exact ⟨n, by simp [parseLimitField, h1, h2]⟩
  obtain ⟨d, e2⟩ : ∃ d, parseDateRangeField (jLookup fields "dateRange") = .ok d := by
    cases hd : jLookup fields "dateRange" with
    | none => exact ⟨⟨"LAST_7_DAYS", "TODAY"⟩, rfl⟩
    | some dv =>
      have hdc : schemaConforms (fuel+1+1) dateRangeSubschema dv = true := by
        refine hp "dateRange" dateRangeSubschema ?_ dv hd
        rw [hpropsEq]
        exact List.mem_cons_of_mem _ (List.mem_cons_self _ _)
      have hdty : schemaTypeOf dateRangeSubschema = some "object" := rfl
      obtain ⟨dfs, rfl⟩ := conf_obj_shape _ _ _ hdty hdc
      obtain ⟨hdp, hdr⟩ := conf_obj_fields _ _ _ hdty hdc
      have hdpropsEq : propsOf dateRangeSubschema
          = [("startDate", dateStrSubschema), ("endDate", dateStrSubschema)] := rfl
      have hdreqEq : reqdOf dateRangeSubschema = ["startDate", "endDate"] := rfl
      have hs : (jLookup dfs "startDate").isSome = true := by
        apply hdr
        rw [hdreqEq]
        exact List.mem_cons_self _ _
      have he : (jLookup dfs "endDate").isSome = true := by
        apply hdr
        rw [hdreqEq]
        exact List.mem_cons_of_mem _ (List.mem_cons_self _ _)
      obtain ⟨sv, hsv⟩ := Option.isSome_iff_exists.mp hs
      obtain ⟨ev, hev⟩ := Option.isSome_iff_exists.mp he
      have hsc : schemaConforms (fuel+1) dateStrSubschema sv = true := by
        refine hdp "startDate" dateStrSubschema ?_ sv hsv
        rw [hdpropsEq]
        exact List.mem_cons_self _ _
      have hec : schemaConforms (fuel+1) dateStrSubschema ev = true := by
        refine hdp "endDate" dateStrSubschema ?_ ev hev
        rw [hdpropsEq]
        exact List.mem_cons_of_mem _ (List.mem_cons_self _ _)
      obtain ⟨x, rfl⟩ := conf_str_shape _ dateStrSubschema _ rfl hsc
      obtain ⟨y, rfl⟩ := conf_str_shape _ dateStrSubschema _ rfl hec
      exact ⟨⟨x, y⟩, by simp [parseDateRangeField, parseDateStr, hsv, hev]⟩
  exact ⟨⟨l, d⟩, by simp [zTopCampaignsParse, e1, e2]⟩

/-! ### Bound violations short-circuit before the network -/

theorem zSearch_err_of_ps (fields : List (String × Json)) (i : List String)
    (hp : parsePageSizeField (jLookup fields "pageSize") = .error i) :
    ∃ i2, zSearchParse (.obj fields) = .error i2 := by
  cases hg : parseGaqlField (jLookup fields "gaql") with
  | ok g => exact ⟨i, by simp [zSearchParse, hg, hp]⟩
  | error e1 => exact ⟨e1 ++ i, by simp [zSearchParse, hg, hp]⟩

theorem zTop_err_of_limit (fields : List (String × Json)) (i : List String)
    (hl : parseLimitField (jLookup fields "limit") = .error i) :
    ∃ i2, zTopCampaignsParse (.obj fields) = .error i2 := by
  cases hd : parseDateRangeField (jLookup fields "dateRange") with
  | ok d => exact ⟨i, by simp [zTopCampaignsParse, hl, hd]⟩
  | error e2 => exact ⟨i ++ e2, by simp [zTopCampaignsParse, hl, hd]⟩

theorem callSearch_violation (oracle : Oracle) (args : Json)
    (hv : searchBoundsViolated args = true) :
    isValidationErr (callAdsTool oracle "ads_search" args).1 = true
      ∧ (callAdsTool oracle "ads_search" args).2 = [] := by
  match args with
  | .obj fields =>
    obtain ⟨n, hpv, hbound⟩ :
        ∃ n, jLookup fields "pageSize" = some (.int n) ∧ (n < 1 ∨ 10000 < n) := by
      revert hv
      simp only [searchBoundsViolated, jGet]
      cases hpv : jLookup fields "pageSize" with
      | none => intro hv; cases hv
      | some v =>
        cases v with
        | int n =>
          intro hv
          exact ⟨n, rfl, by simpa using hv⟩
        | null | bool b | str s | arr xs | obj fs => intro hv; cases hv
    have perr : parsePageSizeField (jLookup fields "pageSize")
        = .error ["pageSize: out of range"] := by
      rw [hpv]
      simp only [parsePageSizeField]
      rw [if_neg (by omega)]
    obtain ⟨i2, zerr⟩ := zSearch_err_of_ps fields _ perr
    rw [callSearch_eq, zerr]
    exact ⟨rfl, rfl⟩
  | .null | .bool _ | .int _ | .str _ | .arr _ =>
    simp [searchBoundsViolated, jGet] at hv

theorem callTop_violation (oracle : Oracle) (args : Json)
    (hv : topBoundsViolated args = true) :
    isValidationErr (callAdsTool oracle "ads_top_campaigns" args).1 = true
      ∧ (callAdsTool oracle "ads_top_campaigns" args).2 = [] := by
  match args with
  | .obj fields =>
    obtain ⟨n, hpv, hbound⟩ :
        ∃ n, jLookup fields "limit" = some (.int n) ∧ (n < 1 ∨ 1000 < n) := by
      revert hv
      simp only [topBoundsViolated, jGet]
      cases hpv : jLookup fields "limit" with
      | none => intro hv; cases hv
      | some v =>
        cases v with
        | int n =>
          intro hv
          exact ⟨n, rfl, by simpa using hv⟩
        | null | bool b | str s | arr xs | obj fs => intro hv; cases hv
    have lerr : parseLimitField (jLookup fields "limit")
        = .error ["limit: out of range"] := by
      rw [hpv]
      simp only [parseLimitField]
      rw [if_neg (by omega)]
    obtain ⟨i2, zerr⟩ := zTop_err_of_limit fields _ lerr
    rw [callTop_eq, zerr]
    exact ⟨rfl, rfl⟩
  | .null | .bool _ | .int _ | .str _ | .arr _ =>
    simp [topBoundsViolated, jGet] at hv

/-! ### Shape lemmas for the response envelopes -/

theorem errorOf_wrapError (rpc : Bool) (id e : Json) :
    errorOf (wrapError rpc id e) = some e := by cases rpc <;> rfl

theorem resultOf_wrapError (rpc : Bool) (id e : Json) :
    resultOf (wrapError rpc id e) = none := by cases rpc <;> rfl

theorem errCodeOf_wrapError (rpc : Bool) (id : Json) (c : Int) (m : String) :
    errCodeOf (wrapError rpc id (errObj c m)) = some c := by cases rpc <;> rfl

theorem errMessageOf_wrapError (rpc : Bool) (id : Json) (c : Int) (m : String) :
    errMessageOf (wrapError rpc id (errObj c m)) = some m := by cases rpc <;> rfl

theorem resultOf_wrapResult_rpc (id r : Json) :
    resultOf (wrapResult true id r) = some r := rfl

theorem errorOf_wrapResult_rpc (id r : Json) :
    errorOf (wrapResult true id r) = none := rfl

theorem id_wrapResult_rpc (id r : Json) :
    jGet (wrapResult true id r) "id" = some id := rfl

theorem id_wrapError_rpc (id e : Json) :
    jGet (wrapError true id e) "id" = some id := rfl

theorem id_wrapError_norpc (id e : Json) :
    jGet (wrapError false id e) "id" = none := rfl

theorem errCodeOf_fallbackA (rpc : Bool) (id m : Json) :
    errCodeOf (fallbackBodyA rpc id m) = some (-32601) := by cases rpc <;> rfl

theorem errMessageOf_fallbackA (rpc : Bool) (id m : Json) :
    errMessageOf (fallbackBodyA rpc id m)
      = some ("Unsupported method: " ++ jsDisplay m) := by cases rpc <;> rfl

theorem resultOf_fallbackA (rpc : Bool) (id m : Json) :
    resultOf (fallbackBodyA rpc id m) = none := by cases rpc <;> rfl

theorem errorOf_fallbackA_isSome (rpc : Bool) (id m : Json) :
    (errorOf (fallbackBodyA rpc id m)).isSome = true := by cases rpc <;> rfl

theorem id_fallbackA_rpc (id m : Json) :
    jGet (fallbackBodyA true id m) "id" = some id := rfl

theorem id_fallbackA_norpc (id m : Json) :
    jGet (fallbackBodyA false id m) "id" = none := rfl

theorem errCodeOf_fallbackB (rpc : Bool) (id m : Json) :
    errCodeOf (wrapError rpc id (fallbackErrObjB m)) = some (-32601) := by
  cases rpc <;> rfl

theorem errMessageOf_fallbackB (rpc : Bool) (id m : Json) :
    errMessageOf (wrapError rpc id (fallbackErrObjB m)) = some helpMsg := by
  cases rpc <;> rfl

theorem id_initResult : jGet initResultJson "id" = none := rfl

theorem id_ack : jGet (Json.obj [("acknowledged", .bool true)]) "id" = none := rfl

theorem id_toolsList : jGet toolsListResult "id" = none := rfl

theorem id_toolResult (r : ToolResult) : jGet (toolResultJson r) "id" = none := rfl

/-! ## Claim theorems -/

/-- Claim C1 (counterexample): contrary to the claim, a registry failure of
kind `UnknownOperation` is not mapped to a client-error envelope with a code
distinguishing it from the upstream-failure category: calling an unknown tool
yields HTTP 500 with code -32000, the very same code produced for an upstream
failure of a registered tool. -/
theorem c1_counterexample :
    (handleA oracleEmptyOk (.obj [("jsonrpc", .str "2.0"), ("id", .int 1),
        ("method", .str "tools.call"), ("name", .str "nope")])).1 = 500
    ∧ errCodeOf (handleA oracleEmptyOk (.obj [("jsonrpc", .str "2.0"), ("id", .int 1),
        ("method", .str "tools.call"), ("name", .str "nope")])).2 = some (-32000)
    ∧ errCodeOf (handleA oracleFail500 (.obj [("jsonrpc", .str "2.0"), ("id", .int 1),
        ("method", .str "tools.call"), ("name", .str "ads_search"),
        ("arguments", .obj [("gaql", .str "SELECT campaign.id FROM campaign")])])).2
      = some (-32000) := by
  refine ⟨by decide, by decide, by decide⟩

/-- Claim C1 (amended): every registry failure — `UnknownOperation`,
`ValidationError` and `UpstreamError` alike — is mapped to the same
server-error envelope with code -32000 (HTTP 500 in `api/mcp.ts`); the fixed
negative codes distinguish only the adapter-level categories: -32600 for a
malformed request (missing method), -32601 for an unknown method, -32602 for
a call without a tool name. -/
theorem c1_error_code_mapping (oracle : Oracle) (body : Json) :
    (routeOf (jGet body "method") = .missing →
       (handleA oracle body).1 = 400
       ∧ errCodeOf (handleA oracle body).2 = some (-32600))
    ∧ (routeOf (jGet body "method") = .unknown →
       (handleA oracle body).1 = 400
       ∧ errCodeOf (handleA oracle body).2 = some (-32601))
    ∧ (routeOf (jGet body "method") = .callTool →
       jTruthy (nameValOf body) = false →
       (handleA oracle body).1 = 400
       ∧ errCodeOf (handleA oracle body).2 = some (-32602))
    ∧ (∀ e, routeOf (jGet body "method") = .callTool →
       jTruthy (nameValOf body) = true →
       (callAdsTool oracle (jsDisplay (nameValOf body)) (argsOf body)).1 = .error e →
       (handleA oracle body).1 = 500
       ∧ errCodeOf (handleA oracle body).2 = some (-32000)) := by
  refine ⟨?_, ?_, ?_, ?_⟩
  · intro hroute
    simp [handleA, hroute, errCodeOf_wrapError]
  · intro hroute
    simp [handleA, hroute, errCodeOf_fallbackA]
  · intro hroute hname
    simp [handleA, hroute, hname, errCodeOf_wrapError]
  · intro e hroute hname hcall
    simp [handleA, hroute, hname, hcall, errCodeOf_wrapError]

/-- Witness for C1: a request with an unrecognized method gets the
unknown-method code. -/
theorem c1_witness :
    (handleA oracleEmptyOk (.obj [("method", .str "bogus")])).1 = 400
    ∧ errCodeOf (handleA oracleEmptyOk (.obj [("method", .str "bogus")])).2
      = some (-32601) :=
  (c1_error_code_mapping oracleEmptyOk (.obj [("method", .str "bogus")])).2.1 (by decide)

/-- Claim C2 (counterexample): the raw arguments `{gaql: "ab"}` conform to the
published `ads_search` input schema (string-typed `gaql` present, no extra
fields, no numeric bound violated) yet `call` fails with `ValidationError`
(zod's `.min(3)` is not part of the published schema), issuing no network
call. -/
theorem c2_counterexample :
    schemaConforms 10 adsSearchSchema (.obj [("gaql", .str "ab")]) = true
    ∧ isValidationErr (callAdsTool oracleEmptyOk "ads_search"
        (.obj [("gaql", .str "ab")])).1 = true
    ∧ (callAdsTool oracleEmptyOk "ads_search" (.obj [("gaql", .str "ab")])).2 = [] := by
  refine ⟨by decide, by decide, by decide⟩

/-- Claim C2 (amended): for each registered operation, raw arguments that
conform to the published input schema — and, for `ads_search`, whose `gaql`
string additionally has at least 3 characters — never produce a
`ValidationError`: the call returns an Invocation Result or fails with
`UpstreamError`. -/
theorem c2_valid_args_never_validation_error (oracle : Oracle) (args : Json) :
    (schemaConforms 10 adsSearchSchema args = true → 3 ≤ gaqlLenOf args →
       (∃ r, (callAdsTool oracle "ads_search" args).1 = .ok r)
       ∨ (∃ s t, (callAdsTool oracle "ads_search" args).1 = .error (.upstream s t)))
    ∧ (schemaConforms 10 adsTopCampaignsSchema args = true →
       (∃ r, (callAdsTool oracle "ads_top_campaigns" args).1 = .ok r)
       ∨ (∃ s t, (callAdsTool oracle "ads_top_campaigns" args).1
            = .error (.upstream s t))) := by
  constructor
  · intro hconf hlen
    obtain ⟨a, hp⟩ := searchConf_parse 8 args hconf hlen
    cases ho : oracle ⟨a.gaql, a.pageSize⟩ with
    | ok data =>
      exact Or.inl ⟨⟨"Returned " ++ jsLenStr (jsRows data) ++ " rows.", jsRows data⟩,
        by simp [callSearch_eq, hp, ho]⟩
    | err s t => exact Or.inr ⟨s, t, by simp [callSearch_eq, hp, ho]⟩
  · intro hconf
    obtain ⟨a, hp⟩ := topConf_parse 7 args hconf
    cases ho : oracle ⟨topCampaignsGaql a.limit a.dateRange.startDate a.dateRange.endDate,
                       a.limit⟩ with
    | ok data =>
      exact Or.inl ⟨⟨"Top " ++ jsLenStr (jsRows data) ++ " campaigns by clicks ("
          ++ a.dateRange.startDate ++ ".." ++ a.dateRange.endDate ++ ").", jsRows data⟩,
        by simp [callTop_eq, hp, ho]⟩
    | err s t => exact Or.inr ⟨s, t, by simp [callTop_eq, hp, ho]⟩

/-- Witness for C2: a well-formed query against a succeeding upstream. -/
theorem c2_witness :
    (∃ r, (callAdsTool oracleEmptyOk "ads_search"
        (.obj [("gaql", .str "SELECT campaign.id FROM campaign")])).1 = .ok r)
    ∨ (∃ s t, (callAdsTool oracleEmptyOk "ads_search"
        (.obj [("gaql", .str "SELECT campaign.id FROM campaign")])).1
          = .error (.upstream s t)) :=
  (c2_valid_args_never_validation_error oracleEmptyOk
    (.obj [("gaql", .str "SELECT campaign.id FROM campaign")])).1 (by decide) (by decide)

/-- Claim C3 (counterexample): the method `"initialize"` is neither the
listing nor the calling method, yet the adapter answers it with a success
envelope, not the unknown-method error. -/
theorem c3_counterexample :
    resultOf (handleA oracleEmptyOk (.obj [("jsonrpc", .str "2.0"), ("id", .int 1),
        ("method", .str "initialize")])).2 = some initResultJson
    ∧ errorOf (handleA oracleEmptyOk (.obj [("jsonrpc", .str "2.0"), ("id", .int 1),
        ("method", .str "initialize")])).2 = none
    ∧ errCodeOf (handleA oracleEmptyOk (.obj [("jsonrpc", .str "2.0"), ("id", .int 1),
        ("method", .str "initialize")])).2 ≠ some (-32601) :=
  ⟨rfl, rfl, by decide⟩

/-- Claim C3 (amended): a present, truthy method that is none of the six
recognized method strings (the two listing forms, the two calling forms, and
the two handshake methods `initialize` / `notifications/initialized`) is
answered by both handlers with the unknown-method error code -32601 and never
with a success envelope. -/
theorem c3_unrecognized_method (oracle : Oracle) (body m : Json)
    (hm : jGet body "method" = some m)
    (ht : jTruthy m = true)
    (hs : ∀ s, m = .str s →
       s ∉ (["initialize", "notifications/initialized", "tools.list", "tools/list",
             "tools.call", "tools/call"] : List String)) :
    errCodeOf (handleA oracle body).2 = some (-32601)
    ∧ resultOf (handleA oracle body).2 = none
    ∧ errCodeOf (handleB oracle body).2 = some (-32601)
    ∧ resultOf (handleB oracle body).2 = none := by
  have hroute : routeOf (jGet body "method") = .unknown := by
    rw [hm]
    cases m with
    | str s =>
      have h6 := hs s rfl
      simp only [List.mem_cons, List.not_mem_nil, or_false, not_or] at h6
      obtain ⟨n1, n2, n3, n4, n5, n6⟩ := h6
      simp [routeOf, ht, n1, n2, n3, n4, n5, n6]
    | null | bool b | int n | arr xs | obj fs =>
      simp [routeOf, ht]
  refine ⟨?_, ?_, ?_, ?_⟩
  · simp [handleA, hroute, errCodeOf_fallbackA]
  · simp [handleA, hroute, resultOf_fallbackA]
  · simp [handleB, hroute, errCodeOf_fallbackB]
  · simp [handleB, hroute, resultOf_wrapError]

/-- Witness for C3: the unknown method `"bogus"`. -/
theorem c3_witness :
    errCodeOf (handleA oracleEmptyOk (.obj [("method", .str "bogus")])).2 = some (-32601)
    ∧ resultOf (handleA oracleEmptyOk (.obj [("method", .str "bogus")])).2 = none
    ∧ errCodeOf (handleB oracleEmptyOk (.obj [("method", .str "bogus")])).2 = some (-32601)
    ∧ resultOf (handleB oracleEmptyOk (.obj [("method", .str "bogus")])).2 = none :=
  c3_unrecognized_method oracleEmptyOk (.obj [("method", .str "bogus")]) (.str "bogus")
    rfl (by decide) (by intro s h; cases h; decide)

/-- Claim C4 (confirmed): for `ads_top_campaigns` the limit defaults to 10 and
is accepted exactly on [1, 1000]; the date range defaults to the relative
tokens `LAST_7_DAYS`/`TODAY`; and for input `{limit: 3}` with the defaulted
date range the constructed query string contains both default date tokens and
a `LIMIT 3` clause, and is the query actually sent upstream. -/
theorem c4_top_campaigns_template :
    parseLimitField none = .ok 10
    ∧ (∀ n : Int, 1 ≤ n → n ≤ 1000 → parseLimitField (some (.int n)) = .ok n)
    ∧ (∀ n : Int, n < 1 ∨ 1000 < n →
        parseLimitField (some (.int n)) = .error ["limit: out of range"])
    ∧ parseDateRangeField none = .ok ⟨"LAST_7_DAYS", "TODAY"⟩
    ∧ zTopCampaignsParse (.obj [("limit", .int 3)]) = .ok ⟨3, ⟨"LAST_7_DAYS", "TODAY"⟩⟩
    ∧ strContains (topCampaignsGaql 3 "LAST_7_DAYS" "TODAY") "LAST_7_DAYS" = true
    ∧ strContains (topCampaignsGaql 3 "LAST_7_DAYS" "TODAY") "TODAY" = true
    ∧ strContains (topCampaignsGaql 3 "LAST_7_DAYS" "TODAY") "LIMIT 3" = true
    ∧ (callAdsTool oracleEmptyOk "ads_top_campaigns" (.obj [("limit", .int 3)])).2
        = [⟨topCampaignsGaql 3 "LAST_7_DAYS" "TODAY", 3⟩] := by
  refine ⟨rfl, ?_, ?_, rfl, rfl, by decide, by decide, by decide, by decide⟩
  · intro n h1 h2
    simp [parseLimitField, h1, h2]
  · intro n h
    simp only [parseLimitField]
    rw [if_neg (by omega)]

/-- Witness for C4: an in-bounds limit is accepted as given. -/
theorem c4_witness : parseLimitField (some (.int 500)) = .ok 500 :=
  c4_top_campaigns_template.2.1 500 (by decide) (by decide)

/-- Claim C5 (confirmed): for `ads_search` the page size defaults to 1000 and
is accepted exactly on [1, 10000]; a validated call issues exactly one
upstream request carrying the caller's query string and page size and returns
the upstream rows verbatim with a summary stating the row count; on the
spec's two-row mock the summary text contains "2" and the structured rows
have length 2. -/
theorem c5_search_behaviour :
    parsePageSizeField none = .ok 1000
    ∧ (∀ n : Int, 1 ≤ n → n ≤ 10000 → parsePageSizeField (some (.int n)) = .ok n)
    ∧ (∀ n : Int, n < 1 ∨ 10000 < n →
        parsePageSizeField (some (.int n)) = .error ["pageSize: out of range"])
    ∧ (∀ (oracle : Oracle) (s : String) (n : Int), 3 ≤ s.length → 1 ≤ n → n ≤ 10000 →
        (callAdsTool oracle "ads_search"
            (.obj [("gaql", .str s), ("pageSize", .int n)])).2 = [⟨s, n⟩]
        ∧ ∀ data, oracle ⟨s, n⟩ = .ok data →
            (callAdsTool oracle "ads_search"
                (.obj [("gaql", .str s), ("pageSize", .int n)])).1
              = .ok ⟨"Returned " ++ jsLenStr (jsRows data) ++ " rows.", jsRows data⟩)
    ∧ (callAdsTool oracleMock2 "ads_search"
        (.obj [("gaql", .str "SELECT campaign.id FROM campaign"), ("pageSize", .int 5)])).1
        = .ok ⟨"Returned 2 rows.",
               .arr [.obj [("campaignId", .str "1")], .obj [("campaignId", .str "2")]]⟩
    ∧ (callAdsTool oracleMock2 "ads_search"
        (.obj [("gaql", .str "SELECT campaign.id FROM campaign"), ("pageSize", .int 5)])).2
        = [⟨"SELECT campaign.id FROM campaign", 5⟩]
    ∧ strContains (textOf (callAdsTool oracleMock2 "ads_search"
        (.obj [("gaql", .str "SELECT campaign.id FROM campaign"),
               ("pageSize", .int 5)])).1) "2" = true
    ∧ rowsLenOf (callAdsTool oracleMock2 "ads_search"
        (.obj [("gaql", .str "SELECT campaign.id FROM campaign"),
               ("pageSize", .int 5)])).1 = some 2 := by
  refine ⟨rfl, ?_, ?_, ?_, rfl, by decide, by decide, by decide⟩
  · intro n h1 h2
    simp [parsePageSizeField, h1, h2]
  · intro n h
    simp only [parsePageSizeField]
    rw [if_neg (by omega)]
  · intro oracle s n h3 h1 h2
    have hp := zSearchParse_pair s n h3 h1 h2
    constructor
    · cases ho : oracle ⟨s, n⟩ <;> simp [callSearch_eq, hp, ho]
    · intro data hd
      simp [callSearch_eq, hp, hd]

/-- Witness for C5: the spec's mock: query string and page size 5 are sent
upstream exactly once. -/
theorem c5_witness :
    (callAdsTool oracleMock2 "ads_search"
        (.obj [("gaql", .str "SELECT campaign.id FROM campaign"),
               ("pageSize", .int 5)])).2 = [⟨"SELECT campaign.id FROM campaign", 5⟩] :=
  ((c5_search_behaviour.2.2.2.1) oracleMock2 "SELECT campaign.id FROM campaign" 5
    (by decide) (by decide) (by decide)).1

/-- Claim C6 (confirmed): for either registered operation, any argument
mapping whose declared numeric bound is violated (page size outside
[1, 10000], limit outside [1, 1000]) makes `call` fail with
`ValidationError`, and no upstream request is issued in that invocation. -/
theorem c6_bounds_violation (oracle : Oracle) (args : Json) :
    (searchBoundsViolated args = true →
       isValidationErr (callAdsTool oracle "ads_search" args).1 = true
       ∧ (callAdsTool oracle "ads_search" args).2 = [])
    ∧ (topBoundsViolated args = true →
       isValidationErr (callAdsTool oracle "ads_top_campaigns" args).1 = true
       ∧ (callAdsTool oracle "ads_top_campaigns" args).2 = []) :=
  ⟨callSearch_violation oracle args, callTop_violation oracle args⟩

/-- Witness for C6: page sizes 0 and 20000 both fail validation with no
network call. -/
theorem c6_witness :
    (isValidationErr (callAdsTool oracleEmptyOk "ads_search"
        (.obj [("gaql", .str "SELECT campaign.id FROM campaign"),
               ("pageSize", .int 0)])).1 = true
     ∧ (callAdsTool oracleEmptyOk "ads_search"
        (.obj [("gaql", .str "SELECT campaign.id FROM campaign"),
               ("pageSize", .int 0)])).2 = [])
    ∧ (isValidationErr (callAdsTool oracleEmptyOk "ads_search"
        (.obj [("gaql", .str "SELECT campaign.id FROM campaign"),
               ("pageSize", .int 20000)])).1 = true
     ∧ (callAdsTool oracleEmptyOk "ads_search"
        (.obj [("gaql", .str "SELECT campaign.id FROM campaign"),
               ("pageSize", .int 20000)])).2 = []) :=
  ⟨(c6_bounds_violation oracleEmptyOk _).1 (by decide),
   (c6_bounds_violation oracleEmptyOk _).1 (by decide)⟩

/-- Claim C7 (counterexample): a decoded request that carries an id but no
`jsonrpc` marker gets a response without any id — the id is not echoed. -/
theorem c7_counterexample :
    jGet (Json.obj [("id", .int 7), ("method", .str "tools.list")]) "id" = some (.int 7)
    ∧ jGet (handleA oracleEmptyOk
        (.obj [("id", .int 7), ("method", .str "tools.list")])).2 "id" = none
    ∧ jGet (handleB oracleEmptyOk
        (.obj [("id", .int 7), ("method", .str "tools.list")])).2 "id" = none :=
  ⟨rfl, rfl, rfl⟩

/-- Claim C7 (amended): when the request carries a truthy `jsonrpc` marker,
both handlers echo `body.id ?? null` into the response envelope unchanged
(null when absent); without the marker the response never carries an id. -/
theorem c7_id_echo (oracle : Oracle) (body : Json) :
    (rpcOf body = true →
       jGet (handleA oracle body).2 "id" = some (reqIdOf body)
       ∧ jGet (handleB oracle body).2 "id" = some (reqIdOf body))
    ∧ (rpcOf body = false →
       jGet (handleA oracle body).2 "id" = none
       ∧ jGet (handleB oracle body).2 "id" = none) := by
  constructor
  · intro h
    cases hroute : routeOf (jGet body "method") with
    | missing => simp [handleA, handleB, hroute, h, id_wrapError_rpc]
    | handshake => simp [handleA, handleB, hroute, h, id_wrapResult_rpc]
    | notifInit => simp [handleA, handleB, hroute, h, id_wrapResult_rpc]
    | listTools => simp [handleA, handleB, hroute, h, id_wrapResult_rpc]
    | callTool =>
      cases hname : jTruthy (nameValOf body) with
      | false => simp [handleA, handleB, hroute, h, hname, id_wrapError_rpc]
      | true =>
        cases hcall : (callAdsTool oracle (jsDisplay (nameValOf body)) (argsOf body)).1 with
        | ok r => simp [handleA, handleB, hroute, h, hname, hcall, id_wrapResult_rpc]
        | error e => simp [handleA, handleB, hroute, h, hname, hcall, id_wrapError_rpc]
    | unknown => simp [handleA, handleB, hroute, h, id_fallbackA_rpc, id_wrapError_rpc]
  · intro h
    cases hroute : routeOf (jGet body "method") with
    | missing => simp [handleA, handleB, hroute, h, id_wrapError_norpc]
    | handshake => simp [handleA, handleB, hroute, h, wrapResult, id_initResult]
    | notifInit => simp [handleA, handleB, hroute, h, wrapResult, id_ack]
    | listTools => simp [handleA, handleB, hroute, h, wrapResult, id_toolsList]
    | callTool =>
      cases hname : jTruthy (nameValOf body) with
      | false => simp [handleA, handleB, hroute, h, hname, id_wrapError_norpc]
      | true =>
        cases hcall : (callAdsTool oracle (jsDisplay (nameValOf body)) (argsOf body)).1 with
        | ok r => simp [handleA, handleB, hroute, h, hname, hcall, wrapResult, id_toolResult]
        | error e => simp [handleA, handleB, hroute, h, hname, hcall, id_wrapError_norpc]
    | unknown => simp [handleA, handleB, hroute, h, id_fallbackA_norpc, id_wrapError_norpc]

/-- Witness for C7: a JSON-RPC request with id 42 sees it echoed by both
handlers. -/
theorem c7_witness :
    jGet (handleA oracleEmptyOk (.obj [("jsonrpc", .str "2.0"), ("id", .int 42),
        ("method", .str "tools.list")])).2 "id" = some (.int 42)
    ∧ jGet (handleB oracleEmptyOk (.obj [("jsonrpc", .str "2.0"), ("id", .int 42),
        ("method", .str "tools.list")])).2 "id" = some (.int 42) :=
  (c7_id_echo oracleEmptyOk (.obj [("jsonrpc", .str "2.0"), ("id", .int 42),
      ("method", .str "tools.list")])).1 (by decide)

/-- Claim C8 (confirmed): `listAdsTools()` is a pure total function returning
exactly one descriptor per registered operation name (names in registry
order, no duplicates); each descriptor carries the operation's name, title,
description and input schema under exactly the six metadata keys — no
handler field — and both the published input schema and the simplified
`parameters` shape set `additionalProperties: false` for both tools. -/
theorem c8_list_descriptors :
    listAdsTools = [toolDescriptor adsSearchMeta, toolDescriptor adsTopCampaignsMeta]
    ∧ listAdsTools.map (fun d => jGet d "name")
        = [some (.str "ads_search"), some (.str "ads_top_campaigns")]
    ∧ registry.map ToolMeta.name = ["ads_search", "ads_top_campaigns"]
    ∧ (registry.map ToolMeta.name).Nodup
    ∧ jKeys (toolDescriptor adsSearchMeta)
        = ["name", "title", "description", "inputSchema", "input_schema", "parameters"]
    ∧ jKeys (toolDescriptor adsTopCampaignsMeta)
        = ["name", "title", "description", "inputSchema", "input_schema", "parameters"]
    ∧ jGet (toolDescriptor adsSearchMeta) "title" = some (.str adsSearchMeta.title)
    ∧ jGet (toolDescriptor adsSearchMeta) "description"
        = some (.str adsSearchMeta.description)
    ∧ jGet (toolDescriptor adsSearchMeta) "inputSchema" = some adsSearchSchema
    ∧ jGet (toolDescriptor adsTopCampaignsMeta) "title"
        = some (.str adsTopCampaignsMeta.title)
    ∧ jGet (toolDescriptor adsTopCampaignsMeta) "description"
        = some (.str adsTopCampaignsMeta.description)
    ∧ jGet (toolDescriptor adsTopCampaignsMeta) "inputSchema" = some adsTopCampaignsSchema
    ∧ jGet adsSearchSchema "additionalProperties" = some (.bool false)
    ∧ jGet adsTopCampaignsSchema "additionalProperties" = some (.bool false)
    ∧ (jGet (toolDescriptor adsSearchMeta) "parameters").bind
        (fun p => jGet p "additionalProperties") = some (.bool false)
    ∧ (jGet (toolDescriptor adsTopCampaignsMeta) "parameters").bind
        (fun p => jGet p "additionalProperties") = some (.bool false) :=
  ⟨rfl, rfl, rfl, by decide, rfl, rfl, rfl, rfl, rfl, rfl, rfl, rfl, rfl, rfl, rfl, rfl⟩

/-- Claim C9 (confirmed): every JSON-RPC envelope the adapters produce — on
every decoded-request path, success and failure alike — contains exactly one
of `result` / `error`, never both and never neither.  (Responses to requests
without the `jsonrpc` marker are bare payloads, not protocol envelopes.) -/
theorem c9_envelope_exclusive (oracle : Oracle) (body : Json)
    (h : rpcOf body = true) :
    (((resultOf (handleA oracle body).2).isSome = true
        ∧ errorOf (handleA oracle body).2 = none)
      ∨ (resultOf (handleA oracle body).2 = none
        ∧ (errorOf (handleA oracle body).2).isSome = true))
    ∧ (((resultOf (handleB oracle body).2).isSome = true
        ∧ errorOf (handleB oracle body).2 = none)
      ∨ (resultOf (handleB oracle body).2 = none
        ∧ (errorOf (handleB oracle body).2).isSome = true)) := by
  cases hroute : routeOf (jGet body "method") with
  | missing =>
    constructor <;>
      exact Or.inr (by simp [handleA, handleB, hroute, h, resultOf_wrapError, errorOf_wrapError])
  | handshake =>
    constructor <;>
      exact Or.inl (by simp [handleA, handleB, hroute, h, resultOf_wrapResult_rpc,
        errorOf_wrapResult_rpc])
  | notifInit =>
    constructor <;>
      exact Or.inl (by simp [handleA, handleB, hroute, h, resultOf_wrapResult_rpc,
        errorOf_wrapResult_rpc])
  | listTools =>
    constructor <;>
      exact Or.inl (by simp [handleA, handleB, hroute, h, resultOf_wrapResult_rpc,
        errorOf_wrapResult_rpc])
  | callTool =>
    cases hname : jTruthy (nameValOf body) with
    | false =>
      constructor <;>
        exact Or.inr (by simp [handleA, handleB, hroute, h, hname, resultOf_wrapError,
          errorOf_wrapError])
    | true =>
      cases hcall : (callAdsTool oracle (jsDisplay (nameValOf body)) (argsOf body)).1 with
      | ok r =>
        constructor <;>
          exact Or.inl (by simp [handleA, handleB, hroute, h, hname, hcall,
            resultOf_wrapResult_rpc, errorOf_wrapResult_rpc])
      | error e =>
        constructor <;>
          exact Or.inr (by simp [handleA, handleB, hroute, h, hname, hcall,
            resultOf_wrapError, errorOf_wrapError])
  | unknown =>
    constructor
    · exact Or.inr (by simp [handleA, hroute, h, resultOf_fallbackA, errorOf_fallbackA_isSome])
    · exact Or.inr (by simp [handleB, hroute, h, resultOf_wrapError, errorOf_wrapError])

/-- Witness for C9: the listing request produces a result-only envelope. -/
theorem c9_witness :
    (((resultOf (handleA oracleEmptyOk (.obj [("jsonrpc", .str "2.0"), ("id", .int 1),
          ("method", .str "tools.list")])).2).isSome = true
        ∧ errorOf (handleA oracleEmptyOk (.obj [("jsonrpc", .str "2.0"), ("id", .int 1),
          ("method", .str "tools.list")])).2 = none)
      ∨ (resultOf (handleA oracleEmptyOk (.obj [("jsonrpc", .str "2.0"), ("id", .int 1),
          ("method", .str "tools.list")])).2 = none
        ∧ (errorOf (handleA oracleEmptyOk (.obj [("jsonrpc", .str "2.0"), ("id", .int 1),
          ("method", .str "tools.list")])).2).isSome = true))
    ∧ (((resultOf (handleB oracleEmptyOk (.obj [("jsonrpc", .str "2.0"), ("id", .int 1),
          ("method", .str "tools.list")])).2).isSome = true
        ∧ errorOf (handleB oracleEmptyOk (.obj [("jsonrpc", .str "2.0"), ("id", .int 1),
          ("method", .str "tools.list")])).2 = none)
      ∨ (resultOf (handleB oracleEmptyOk (.obj [("jsonrpc", .str "2.0"), ("id", .int 1),
          ("method", .str "tools.list")])).2 = none
        ∧ (errorOf (handleB oracleEmptyOk (.obj [("jsonrpc", .str "2.0"), ("id", .int 1),
          ("method", .str "tools.list")])).2).isSome = true)) :=
  c9_envelope_exclusive oracleEmptyOk (.obj [("jsonrpc", .str "2.0"), ("id", .int 1),
    ("method", .str "tools.list")]) (by decide)

/-- Claim C10 (counterexample): on the unrecognized-method fallback the two
handler implementations disagree: both use code -32601, but `api/mcp.ts`
keeps the message "Unsupported method: nope" while the unnamed variant's
spread `{code, message, ...helpPayload()}` overwrites the message with the
help text. -/
theorem c10_counterexample :
    errCodeOf (handleA oracleEmptyOk (.obj [("jsonrpc", .str "2.0"), ("id", .int 1),
        ("method", .str "nope")])).2 = some (-32601)
    ∧ errCodeOf (handleB oracleEmptyOk (.obj [("jsonrpc", .str "2.0"), ("id", .int 1),
        ("method", .str "nope")])).2 = some (-32601)
    ∧ errMessageOf (handleA oracleEmptyOk (.obj [("jsonrpc", .str "2.0"), ("id", .int 1),
        ("method", .str "nope")])).2 = some "Unsupported method: nope"
    ∧ errMessageOf (handleB oracleEmptyOk (.obj [("jsonrpc", .str "2.0"), ("id", .int 1),
        ("method", .str "nope")])).2 = some helpMsg
    ∧ errMessageOf (handleA oracleEmptyOk (.obj [("jsonrpc", .str "2.0"), ("id", .int 1),
        ("method", .str "nope")])).2
      ≠ errMessageOf (handleB oracleEmptyOk (.obj [("jsonrpc", .str "2.0"), ("id", .int 1),
        ("method", .str "nope")])).2 := by
  refine ⟨by decide, by decide, by decide, by decide, by decide⟩

/-- Claim C10 (amended): for decoded requests carrying the `jsonrpc` marker
the two handler implementations produce identical envelopes — same id, same
result or same error code and message — on every path except the
unrecognized-method fallback; there both emit code -32601 with the request id
echoed, but the envelopes differ (the unnamed variant replaces the message
with the help text and nests the help payload inside the error object). -/
theorem c10_handlers_equivalent (oracle : Oracle) (body : Json)
    (hrpc : rpcOf body = true) :
    (routeOf (jGet body "method") ≠ .unknown →
       (handleA oracle body).2 = (handleB oracle body).2)
    ∧ (routeOf (jGet body "method") = .unknown →
       errCodeOf (handleA oracle body).2 = some (-32601)
       ∧ errCodeOf (handleB oracle body).2 = some (-32601)
       ∧ jGet (handleA oracle body).2 "id" = some (reqIdOf body)
       ∧ jGet (handleB oracle body).2 "id" = some (reqIdOf body)) := by
  constructor
  · intro hne
    cases hroute : routeOf (jGet body "method") with
    | missing => simp [handleA, handleB, hroute]
    | handshake => simp [handleA, handleB, hroute]
    | notifInit => simp [handleA, handleB, hroute]
    | listTools => simp [handleA, handleB, hroute]
    | callTool =>
      cases hname : jTruthy (nameValOf body) with
      | false => simp [handleA, handleB, hroute, hname]
      | true =>
        cases hcall : (callAdsTool oracle (jsDisplay (nameValOf body)) (argsOf body)).1 with
        | ok r => simp [handleA, handleB, hroute, hname, hcall]
        | error e => simp [handleA, handleB, hroute, hname, hcall]
    | unknown => exact absurd hroute hne
  · intro hroute
    refine ⟨?_, ?_, ?_, ?_⟩
    · simp [handleA, hroute, errCodeOf_fallbackA]
    · simp [handleB, hroute, errCodeOf_fallbackB]
    · simp [handleA, hroute, hrpc, id_fallbackA_rpc]
    · simp [handleB, hroute, hrpc, id_wrapError_rpc]

/-- Witness for C10: both handlers answer the handshake identically. -/
theorem c10_witness :
    (handleA oracleEmptyOk (.obj [("jsonrpc", .str "2.0"), ("id", .int 1),
        ("method", .str "initialize")])).2
      = (handleB oracleEmptyOk (.obj [("jsonrpc", .str "2.0"), ("id", .int 1),
        ("method", .str "initialize")])).2 :=
  (c10_handlers_equivalent oracleEmptyOk (.obj [("jsonrpc", .str "2.0"), ("id", .int 1),
      ("method", .str "initialize")]) (by decide)).1 (by decide)
